import Mathlib

/-!
Shallow embedding of the Eidos RCS Modbus client
(`src/client/rcs_modbus_client.py`) together with a trace model of the
pymodbus transport it drives.

Modelling conventions:
* A 32-bit float is represented by its IEEE-754 single-precision bit
  pattern, a natural number below 2^32.  `BinaryPayloadBuilder` operates
  purely on that bit pattern (pack to four big-endian bytes, regroup into
  16-bit words), so the byte/word shuffling is captured exactly.
* The network is modelled as a trace of `NetOp` events: the operations the
  transport actually performed on the wire, oldest first.  `Transport`
  describes the behaviour of the far side: whether `connect` succeeds,
  after how many successful register operations the socket fails
  (`failAfter`), and what a register read returns.
* Python exceptions become the `PyError` type; a raised exception aborts
  the remaining computation exactly as in Python (`cbind` short-circuits).
* Every Modbus request additionally carries `unit=self.config.unit_id`;
  the unit id is a constant taken from the configuration and is omitted
  from `NetOp` (no claim concerns it).
* `time.sleep`, logging and `input()` perform no network traffic and are
  represented by nothing (comments mark their places).
-/

/-- Python exception kinds raised by the client code or by the pymodbus
transport layer. -/
inductive PyError where
  | keyError (key : String)
  | valueError (msg : String)
  | typeError (msg : String)
  | indexError (msg : String)
  | connectionError (msg : String)
  | modbusException (msg : String)
deriving DecidableEq

/-- Network operations the transport performs on the wire, as recorded in
the execution trace. -/
inductive NetOp where
  | connect (host : String) (port : ℕ)
  | writeRegisters (address : ℕ) (payload : List ℕ)
  | writeRegister (address : ℕ) (value : ℕ)
  | readHoldingRegisters (address : ℕ) (count : ℕ)
deriving DecidableEq

/-- A value of the YAML `calibration` section: either a flat list of
floats (such as `home_position`) or a list of coordinate points (such as
`cone_positions`).  Floats are carried as their bit patterns. -/
inductive CalValue where
  | point (coords : List ℕ)
  | table (points : List (List ℕ))
deriving DecidableEq

/-- The `RCSConfig` dataclass of the source: connection parameters plus
the register map and the calibration dictionaries (dictionaries are
association lists keyed by strings, as in the YAML file). -/
structure RCSConfig where
  host : String
  port : ℕ
  timeout : ℕ
  unit_id : ℕ
  registers : List (String × ℕ)
  calibration : List (String × CalValue)
deriving DecidableEq

/-- Behaviour of the far side of the socket during one test run:
`connectOk` tells whether `connect` succeeds; `failAfter = some n` makes
the transport raise once `n` register operations have succeeded (fault
injection); reads return a response with `isError = readIsError`,
register value `readValue` and textual detail `readErrorDetail`. -/
structure Transport where
  connectOk : Bool
  failAfter : Option ℕ
  readIsError : Bool
  readValue : ℕ
  readErrorDetail : String
deriving DecidableEq

/-- Execution state: how many register operations the transport has
completed (`succ`, used by fault injection) and the trace of network
operations performed so far. -/
structure ExecState where
  succ : ℕ
  trace : List NetOp
deriving DecidableEq

/-- A client computation: state passing plus Python-style exceptions. -/
def ClientM (α : Type) := ExecState → Except PyError α × ExecState

/-- Return a value, no traffic. -/
def cpure {α : Type} (a : α) : ClientM α := fun s => (Except.ok a, s)

/-- Sequencing; a raised exception short-circuits, as in Python. -/
def cbind {α β : Type} (m : ClientM α) (f : α → ClientM β) : ClientM β := fun s =>
  match m s with
  | (Except.ok a, s') => f a s'
  | (Except.error e, s') => (Except.error e, s')

/-- Raise a Python exception. -/
def cthrow {α : Type} (e : PyError) : ClientM α := fun s => (Except.error e, s)

/-- One register operation on the wire.  If the injected fault point is
reached the transport raises and the operation does not happen; otherwise
the operation is appended to the trace. -/
def issue (t : Transport) (op : NetOp) : ClientM Unit := fun s =>
  match t.failAfter with
  | some n =>
      if s.succ < n then (Except.ok (), ⟨s.succ + 1, s.trace ++ [op]⟩)
      else (Except.error (PyError.modbusException "transport failure"), s)
  | none => (Except.ok (), ⟨s.succ + 1, s.trace ++ [op]⟩)

/-- The four bytes of `struct.pack` applied big-endian to a 32-bit value:
most significant byte first (what `BinaryPayloadBuilder` produces for
`byteorder=Endian.BIG`). -/
def float32BytesBE (bits : ℕ) : List ℕ :=
  [bits / 16777216 % 256, bits / 65536 % 256, bits / 256 % 256, bits % 256]

/-- A 16-bit register word assembled from two bytes, high byte first
(big-endian byte order inside each word). -/
def bytesToWordBE (hi lo : ℕ) : ℕ := hi * 256 + lo

/-- `BinaryPayloadBuilder(byteorder=Endian.BIG, wordorder=Endian.LITTLE)`
followed by `add_32bit_float` and `to_registers`: the float's bit pattern
is packed to four big-endian bytes `[b3, b2, b1, b2]` and regrouped with
the *low* 16-bit word first — the first transmitted register holds bytes
`b1, b0` (the low half), the second holds `b3, b2` (the high half). -/
def encodeFloat32 (bits : ℕ) : List ℕ :=
  match float32BytesBE bits with
  | [b3, b2, b1, b0] => [bytesToWordBE b1 b0, bytesToWordBE b3 b2]
  | _ => []

/-- Big-endian byte-string value: fold most significant byte first. -/
def bytesToNatBE (bs : List ℕ) : ℕ := bs.foldl (fun acc b => acc * 256 + b) 0

/-- The two bytes of a 16-bit register word, high byte first. -/
def wordBytesBE (w : ℕ) : List ℕ := [w / 256 % 256, w % 256]

/-- `BinaryPayloadDecoder` with the same endianness settings: the two
registers are a little-endian word pair, so the 32-bit big-endian byte
string is the second word's bytes followed by the first word's bytes. -/
def decodeFloat32 (words : List ℕ) : Option ℕ :=
  match words with
  | [w0, w1] => some (bytesToNatBE (wordBytesBE w1 ++ wordBytesBE w0))
  | _ => none

/-- Result object of `read_holding_registers`, with the fields the client
inspects: `isError()`, `registers` and its textual form. -/
structure ReadResult where
  isError : Bool
  registers : List ℕ
  detail : String
deriving DecidableEq

/-- `self.client.read_holding_registers(address, 1, unit=...)`: one wire
operation; the response is dictated by the `Transport` description. -/
def read_holding_registers (t : Transport) (address count : ℕ) : ClientM ReadResult :=
  cbind (issue t (NetOp.readHoldingRegisters address count)) (fun _ =>
    cpure ⟨t.readIsError, List.replicate count t.readValue, t.readErrorDetail⟩)

/-- `_write_float`: build the two-word payload with the fixed endianness
and write both registers in one request. -/
def _write_float (t : Transport) (address : ℕ) (value : ℕ) : ClientM Unit :=
  issue t (NetOp.writeRegisters address (encodeFloat32 value))

/-- `_write_int`: write a single register. -/
def _write_int (t : Transport) (address value : ℕ) : ClientM Unit :=
  issue t (NetOp.writeRegister address value)

/-- `_read_int`: read one holding register; on an error response raise
`ValueError(f"Error reading register {address}: {result}")`, otherwise
return `result.registers[0]` (an empty register list would raise
`IndexError`, as Python indexing does). -/
def _read_int (t : Transport) (address : ℕ) : ClientM ℕ :=
  cbind (read_holding_registers t address 1) (fun result =>
    if result.isError then
      cthrow (PyError.valueError
        ("Error reading register " ++ toString address ++ ": " ++ result.detail))
    else
      match result.registers with
      | [] => cthrow (PyError.indexError "list index out of range")
      | v :: _ => cpure v)

/-- `self.config.registers[name]`: dictionary lookup, raising `KeyError`
when the name is absent — evaluated before the write/read call it feeds. -/
def regGet (cfg : RCSConfig) (name : String) : ClientM ℕ := fun s =>
  match cfg.registers.lookup name with
  | some a => (Except.ok a, s)
  | none => (Except.error (PyError.keyError name), s)

/-- `self.config.calibration[name]`: dictionary lookup with `KeyError`. -/
def calGet (cfg : RCSConfig) (name : String) : ClientM CalValue := fun s =>
  match cfg.calibration.lookup name with
  | some v => (Except.ok v, s)
  | none => (Except.error (PyError.keyError name), s)

/-- `reset_errors`: write 1 to the `reset_errors` register, sleep 100 ms
(no traffic), then write 0.  There is no try/finally around the pulse. -/
def reset_errors (cfg : RCSConfig) (t : Transport) : ClientM Unit :=
  cbind (regGet cfg "reset_errors") (fun a =>
  cbind (_write_int t a 1) (fun _ =>
  -- time.sleep(0.1): no register traffic
  cbind (regGet cfg "reset_errors") (fun a2 =>
  _write_int t a2 0)))

/-- `enable_drives`: write 1 to `enable_drives`; level-held, not pulsed. -/
def enable_drives (cfg : RCSConfig) (t : Transport) : ClientM Unit :=
  cbind (regGet cfg "enable_drives") (fun a => _write_int t a 1)

/-- `start_program`: write the program number to `program_number`, then
pulse `start_program` high and, after the sleep, low.  No try/finally. -/
def start_program (cfg : RCSConfig) (t : Transport) (program_id : ℕ) : ClientM Unit :=
  cbind (regGet cfg "program_number") (fun pn =>
  cbind (_write_int t pn program_id) (fun _ =>
  cbind (regGet cfg "start_program") (fun sp =>
  cbind (_write_int t sp 1) (fun _ =>
  -- time.sleep(0.1): no register traffic
  cbind (regGet cfg "start_program") (fun sp2 =>
  _write_int t sp2 0)))))

/-- `move_to_xyz`: write the three target floats, then start program 1. -/
def move_to_xyz (cfg : RCSConfig) (t : Transport) (x y z : ℕ) : ClientM Unit :=
  cbind (regGet cfg "target_x") (fun tx =>
  cbind (_write_float t tx x) (fun _ =>
  cbind (regGet cfg "target_y") (fun ty =>
  cbind (_write_float t ty y) (fun _ =>
  cbind (regGet cfg "target_z") (fun tz =>
  cbind (_write_float t tz z) (fun _ =>
  start_program cfg t 1))))))

/-- `go_home`: look up `calibration['home_position']`, index its first
three coordinates (`IndexError` when fewer than three; a nested list
would make `add_32bit_float` fail on a non-float, modelled as
`TypeError`) and delegate to `move_to_xyz`. -/
def go_home (cfg : RCSConfig) (t : Transport) : ClientM Unit :=
  cbind (calGet cfg "home_position") (fun v =>
    match v with
    | CalValue.point (x :: y :: z :: _) => move_to_xyz cfg t x y z
    | CalValue.point _ => cthrow (PyError.indexError "list index out of range")
    | CalValue.table _ => cthrow (PyError.typeError "value is not a float"))

/-- One pass of the `calibrate_base` loop body per cone point: logging and
`input()` only; a point that is not a 3-element list makes the unpacking
`x, y, z = point` raise `ValueError`.  No network traffic either way. -/
def calibrate_points : List (List ℕ) → ClientM Unit
  | [] => cpure ()
  | [_, _, _] :: ps => calibrate_points ps
  | _ :: _ => cthrow (PyError.valueError "values to unpack do not number 3")

/-- `calibrate_base`: iterate over `calibration['cone_positions']`,
prompting the operator at each point.  A flat float list cannot be
unpacked (`TypeError`).  The procedure performs no reads or writes. -/
def calibrate_base (cfg : RCSConfig) (t : Transport) : ClientM Unit :=
  cbind (calGet cfg "cone_positions") (fun v =>
    match v with
    | CalValue.table ps => calibrate_points ps
    | CalValue.point _ => cthrow (PyError.typeError "cannot unpack a float"))

/-- Python's `bin` digit character for a binary digit. -/
def bitChar (d : ℕ) : Char := if d = 1 then '1' else '0'

/-- The digit part of Python's `bin(n)` for `n ≥ 0`: the base-2 digits,
most significant first, `"0"` for zero. -/
def binDigitsStr (n : ℕ) : String :=
  if n = 0 then "0" else String.mk ((Nat.digits 2 n).reverse.map bitChar)

/-- Python's `bin(n)` for `n ≥ 0` (register values are unsigned). -/
def pythonBin (n : ℕ) : String := "0b" ++ binDigitsStr n

/-- Numeric value of a binary digit character. -/
def bitVal (c : Char) : ℕ := if c = '1' then 1 else 0

/-- Value of a most-significant-first binary digit string. -/
def binDigitsVal (s : String) : ℕ :=
  s.toList.foldl (fun acc c => acc * 2 + bitVal c) 0

/-- The returned dictionary of `get_status`: the decimal status word and
its binary textual representation. -/
structure StatusDict where
  status_word : ℕ
  binary : String
deriving DecidableEq

/-- `get_status`: read `status_word` and return
`{"status_word": status, "binary": bin(status)}`. -/
def get_status (cfg : RCSConfig) (t : Transport) : ClientM StatusDict :=
  cbind (regGet cfg "status_word") (fun a =>
  cbind (_read_int t a) (fun status =>
  cpure ⟨status, pythonBin status⟩))

/-- The `rcs` section of the YAML file (inner keys are taken as present;
no claim concerns a partially formed `rcs` section). -/
structure RcsSection where
  host : String
  port : ℕ
  timeout : ℕ
  unit_id : ℕ
deriving DecidableEq

/-- The parsed YAML configuration as `_load_config` sees it: each of the
three top-level sections may be absent, in which case the dictionary
access `data[...]` raises `KeyError`. -/
structure ConfigData where
  rcs : Option RcsSection
  registers : Option (List (String × ℕ))
  calibration : Option (List (String × CalValue))
deriving DecidableEq

/-- `_load_config`: build the `RCSConfig` from the parsed file; a missing
top-level section raises `KeyError`.  Note that the contents of the
register map are not inspected at all. -/
def _load_config (data : ConfigData) : Except PyError RCSConfig :=
  match data.rcs with
  | none => Except.error (PyError.keyError "rcs")
  | some r =>
    match data.registers with
    | none => Except.error (PyError.keyError "registers")
    | some regs =>
      match data.calibration with
      | none => Except.error (PyError.keyError "calibration")
      | some cal => Except.ok ⟨r.host, r.port, r.timeout, r.unit_id, regs, cal⟩

/-- `_connect`: `self.client.connect()` — the connection attempt is
network I/O and is recorded; on failure raise
`ConnectionError(f"Failed to connect to RCS: {host}:{port}")`. -/
def _connect (cfg : RCSConfig) (t : Transport) : ClientM Unit := fun s =>
  let s' : ExecState := ⟨s.succ, s.trace ++ [NetOp.connect cfg.host cfg.port]⟩
  if t.connectOk then (Except.ok (), s')
  else (Except.error (PyError.connectionError
    ("Failed to connect to RCS: " ++ cfg.host ++ ":" ++ toString cfg.port)), s')

/-- `RCSModbusClient.__init__`: load the configuration, construct the
`ModbusTcpClient` (pymodbus connects lazily, so construction itself does
no I/O) and immediately call `_connect`.  The produced value is the
client's configuration. -/
def rcs_modbus_client_init (data : ConfigData) (t : Transport) : ClientM RCSConfig :=
  match _load_config data with
  | Except.error e => cthrow e
  | Except.ok cfg => cbind (_connect cfg t) (fun _ => cpure cfg)

/-- Modelled from the spec: `pymodbus.client.ModbusTcpClient.close` is
library code, not under `src/`.  Per the spec's transport-adapter
contract, `close(handle)` is idempotent, releases the socket, and is a
safe no-op when the connection never succeeded.  The socket is `some id`
when open and `none` when absent or already released. -/
def pymodbus_close (socket : Option ℕ) : Option ℕ :=
  match socket with
  | none => none
  | some _ => none

/-- `RCSModbusClient.close`: delegate to the transport's close (the log
line has no effect on the socket state). -/
def rcs_close (socket : Option ℕ) : Option ℕ := pymodbus_close socket

/-- A register map with every name the client references. -/
def cfg0 : RCSConfig :=
  { host := "192.168.0.10", port := 502, timeout := 5, unit_id := 1,
    registers := [("reset_errors", 100), ("enable_drives", 101),
                  ("program_number", 107), ("start_program", 108),
                  ("target_x", 200), ("target_y", 202), ("target_z", 204),
                  ("status_word", 300)],
    calibration := [("home_position", CalValue.point [10, 20, 30]),
                    ("cone_positions", CalValue.table [[1, 2, 3], [4, 5, 6], [7, 8, 9]])] }

/-- A healthy transport: connects, never fails, reads return 0. -/
def tOK : Transport := ⟨true, none, false, 0, ""⟩

/-- A transport that raises once 1 register operation has succeeded. -/
def tFail1 : Transport := ⟨true, some 1, false, 0, ""⟩

/-- A transport that raises once 2 register operations have succeeded. -/
def tFail2 : Transport := ⟨true, some 2, false, 0, ""⟩

/-- A transport whose reads return a Modbus exception response. -/
def tReadErr : Transport := ⟨true, none, true, 0, "ExceptionResponse(131, 2)"⟩

/-- The register map of `cfg0` with the `status_word` entry removed. -/
def regsNoStatus : List (String × ℕ) :=
  [("reset_errors", 100), ("enable_drives", 101), ("program_number", 107),
   ("start_program", 108), ("target_x", 200), ("target_y", 202), ("target_z", 204)]

/-- A parsed configuration file whose register map lacks `status_word`. -/
def dataNoStatus : ConfigData :=
  ⟨some ⟨"192.168.0.10", 502, 5, 1⟩, some regsNoStatus,
   some [("home_position", CalValue.point [10, 20, 30]),
         ("cone_positions", CalValue.table [[1, 2, 3], [4, 5, 6], [7, 8, 9]])]⟩

/-- The client configuration `__init__` builds from `dataNoStatus`. -/
def cfgNoStatus : RCSConfig :=
  { host := "192.168.0.10", port := 502, timeout := 5, unit_id := 1,
    registers := regsNoStatus,
    calibration := [("home_position", CalValue.point [10, 20, 30]),
                    ("cone_positions", CalValue.table [[1, 2, 3], [4, 5, 6], [7, 8, 9]])] }

/-- String concatenation is associative (helper, via the data lists). -/
theorem string_append_assoc (a b c : String) : a ++ b ++ c = a ++ (b ++ c) := by
  apply String.ext
  simp [String.data_append, List.append_assoc]

/-- Folding the bit characters of a most-significant-first digit list
recovers the number the digits denote (helper for `pythonBin`). -/
theorem foldl_bitChars_eq_ofDigits (l : List ℕ) (hl : ∀ d ∈ l, d < 2) :
    (l.reverse.map bitChar).foldl (fun acc c => acc * 2 + bitVal c) 0 = Nat.ofDigits 2 l := by
  induction l with
  | nil => simp [Nat.ofDigits]
  | cons d tl ih =>
      simp only [List.reverse_cons, List.map_append, List.foldl_append, List.map_cons,
        List.map_nil, List.foldl_cons, List.foldl_nil]
      rw [ih (fun e he => hl e (List.mem_cons_of_mem _ he)), Nat.ofDigits_cons]
      have hd : d < 2 := hl d (List.mem_cons_self d tl)
      interval_cases d <;> simp [bitChar, bitVal] <;> omega

/-- The digit part of `bin(n)` evaluates back to `n` (helper). -/
theorem binDigitsVal_binDigitsStr (n : ℕ) : binDigitsVal (binDigitsStr n) = n := by
  unfold binDigitsStr
  by_cases h : n = 0
  · subst h; rfl
  · rw [if_neg h]
    have hm : (String.mk ((Nat.digits 2 n).reverse.map bitChar)).toList
        = (Nat.digits 2 n).reverse.map bitChar := rfl
    unfold binDigitsVal
    rw [hm, foldl_bitChars_eq_ofDigits _ (fun d hd => Nat.digits_lt_base (by norm_num) hd),
      Nat.ofDigits_digits]

/-- C1: encoding a 32-bit float bit pattern as `_write_float` does
(IEEE-754 bits packed to big-endian bytes, regrouped into two big-endian
16-bit words with the low word transmitted first) and decoding the two
words with the same endianness yields the original bit pattern; the first
register holds the low half `bits % 2^16` and the second the high half
`bits / 2^16`.  This holds for every 32-bit pattern, hence for negative
floats, zero, and all fractional values. -/
theorem C1_float32_roundtrip (bits : ℕ) (h : bits < 4294967296) :
    decodeFloat32 (encodeFloat32 bits) = some bits ∧
    encodeFloat32 bits = [bits % 65536, bits / 65536] := by
  have he : encodeFloat32 bits =
      [(bits / 256 % 256) * 256 + bits % 256,
       (bits / 16777216 % 256) * 256 + bits / 65536 % 256] := rfl
  rw [he]
  unfold decodeFloat32 wordBytesBE bytesToNatBE
  simp only [List.cons_append, List.nil_append, List.foldl_cons, List.foldl_nil,
    Option.some.injEq, List.cons.injEq, and_true]
  omega

/-- C1 witness at the bit pattern of -1.5f (0xBFC00000). -/
theorem C1_float32_roundtrip_witness :
    3217031168 < 4294967296 ∧
    (decodeFloat32 (encodeFloat32 3217031168) = some 3217031168 ∧
     encodeFloat32 3217031168 = [3217031168 % 65536, 3217031168 / 65536]) :=
  ⟨by decide, C1_float32_roundtrip 3217031168 (by decide)⟩

/-- C2: the claim fails on the code.  With a transport that raises
immediately after the high write, `reset_errors` ends with the trigger
register last written as 1 (trace `[writeRegister 100 1]`), and
`start_program 7` with a transport failing after two writes ends with the
`start_program` trigger last written as 1: the exception propagates and
the trailing 0-write never happens (there is no try/finally in the
source). -/
theorem C2_trigger_left_high :
    reset_errors cfg0 tFail1 ⟨0, []⟩ =
      (Except.error (PyError.modbusException "transport failure"),
       ⟨1, [NetOp.writeRegister 100 1]⟩) ∧
    start_program cfg0 tFail2 7 ⟨0, []⟩ =
      (Except.error (PyError.modbusException "transport failure"),
       ⟨2, [NetOp.writeRegister 107 7, NetOp.writeRegister 108 1]⟩) := by
  constructor <;> rfl

/-- C9: `close` is idempotent, releases the socket, and is safe in every
client state, including when the connection never succeeded (`none`) and
after a previous close; it is a total function, so it never raises.
The underlying transport close is modelled from the spec (see
`pymodbus_close`). -/
theorem C9_close_idempotent (socket : Option ℕ) :
    rcs_close (rcs_close socket) = rcs_close socket ∧
    rcs_close none = none ∧ rcs_close socket = none := by
  cases socket <;> simp [rcs_close, pymodbus_close]

/-- The calibration loop never touches the execution state (helper). -/
theorem calibrate_points_state (ps : List (List ℕ)) (s : ExecState) :
    (calibrate_points ps s).2 = s := by
  induction ps generalizing s with
  | nil => rfl
  | cons p ps ih =>
      rcases p with _ | ⟨a, _ | ⟨b, _ | ⟨c, _ | ⟨d, tl⟩⟩⟩⟩ <;>
        simp [calibrate_points, cpure, cthrow, ih]

/-- C10: `calibrate_base` leaves the execution state — in particular the
network trace — unchanged, for every configuration (whatever
`cone_positions` holds, and even when it is absent or malformed): the
procedure is logging and operator prompts only, with zero register
traffic. -/
theorem C10_calibrate_base_no_traffic (cfg : RCSConfig) (t : Transport) (s : ExecState) :
    (calibrate_base cfg t s).2 = s := by
  unfold calibrate_base cbind calGet
  cases h : cfg.calibration.lookup "cone_positions" with
  | none => rfl
  | some v =>
      cases v with
      | point coords => rfl
      | table ps => simpa using calibrate_points_state ps s

/-- C3: for every transport behaviour (including mid-sequence failures)
and every program id, the trace extension `start_program` produces is one
of the prefixes of `[program_number := id, start_program := 1,
start_program := 0]`: whenever the trigger-high write appears at all, the
`program_number` write strictly precedes it, and the very first register
write issued is always the `program_number` write. -/
theorem C3_program_number_before_trigger (cfg : RCSConfig) (t : Transport)
    (program_id pn sp : ℕ) (s : ExecState)
    (hpn : cfg.registers.lookup "program_number" = some pn)
    (hsp : cfg.registers.lookup "start_program" = some sp) :
    ∃ ext, (start_program cfg t program_id s).2.trace = s.trace ++ ext ∧
      (ext = [] ∨ ext = [NetOp.writeRegister pn program_id] ∨
       ext = [NetOp.writeRegister pn program_id, NetOp.writeRegister sp 1] ∨
       ext = [NetOp.writeRegister pn program_id, NetOp.writeRegister sp 1,
              NetOp.writeRegister sp 0]) := by
  cases hf : t.failAfter with
  | none =>
      refine ⟨[NetOp.writeRegister pn program_id, NetOp.writeRegister sp 1,
        NetOp.writeRegister sp 0], ?_, by tauto⟩
      simp [start_program, _write_int, regGet, cbind, issue, hpn, hsp, hf]
  | some n =>
      by_cases h1 : s.succ < n
      · by_cases h2 : s.succ + 1 < n
        · by_cases h3 : s.succ + 2 < n
          · refine ⟨[NetOp.writeRegister pn program_id, NetOp.writeRegister sp 1,
              NetOp.writeRegister sp 0], ?_, by tauto⟩
            simp [start_program, _write_int, regGet, cbind, issue, hpn, hsp, hf, h1, h2, h3]
          · refine ⟨[NetOp.writeRegister pn program_id, NetOp.writeRegister sp 1],
              ?_, by tauto⟩
            simp [start_program, _write_int, regGet, cbind, issue, hpn, hsp, hf, h1, h2, h3]
        · refine ⟨[NetOp.writeRegister pn program_id], ?_, by tauto⟩
          simp [start_program, _write_int, regGet, cbind, issue, hpn, hsp, hf, h1, h2]
      · refine ⟨[], ?_, by tauto⟩
        simp [start_program, _write_int, regGet, cbind, issue, hpn, hsp, hf, h1]

/-- C3 witness: `cfg0` with a transport that fails after two writes. -/
theorem C3_program_number_before_trigger_witness :
    cfg0.registers.lookup "program_number" = some 107 ∧
    cfg0.registers.lookup "start_program" = some 108 ∧
    (∃ ext, (start_program cfg0 tFail2 7 ⟨0, []⟩).2.trace = [] ++ ext ∧
      (ext = [] ∨ ext = [NetOp.writeRegister 107 7] ∨
       ext = [NetOp.writeRegister 107 7, NetOp.writeRegister 108 1] ∨
       ext = [NetOp.writeRegister 107 7, NetOp.writeRegister 108 1,
              NetOp.writeRegister 108 0])) :=
  ⟨rfl, rfl, C3_program_number_before_trigger cfg0 tFail2 7 107 108 ⟨0, []⟩ rfl rfl⟩

/-- C5: on a healthy transport, `move_to_xyz x y z` extends the trace by
exactly the float writes to `target_x`, `target_y`, `target_z` in that
order followed by exactly the writes of `start_program 1` — four register
operations counting the `start_program 1` invocation as the fourth, and
no other traffic; the second conjunct pins the trailing segment to be
precisely what `start_program 1` issues from any state. -/
theorem C5_move_to_xyz_four_ops (cfg : RCSConfig) (t : Transport)
    (x y z tx ty tz pn sp : ℕ) (s : ExecState)
    (htx : cfg.registers.lookup "target_x" = some tx)
    (hty : cfg.registers.lookup "target_y" = some ty)
    (htz : cfg.registers.lookup "target_z" = some tz)
    (hpn : cfg.registers.lookup "program_number" = some pn)
    (hsp : cfg.registers.lookup "start_program" = some sp)
    (hf : t.failAfter = none) :
    (move_to_xyz cfg t x y z s).2.trace =
      s.trace ++ [NetOp.writeRegisters tx (encodeFloat32 x),
                  NetOp.writeRegisters ty (encodeFloat32 y),
                  NetOp.writeRegisters tz (encodeFloat32 z),
                  NetOp.writeRegister pn 1, NetOp.writeRegister sp 1,
                  NetOp.writeRegister sp 0] ∧
    (∀ s' : ExecState, (start_program cfg t 1 s').2.trace =
      s'.trace ++ [NetOp.writeRegister pn 1, NetOp.writeRegister sp 1,
                   NetOp.writeRegister sp 0]) := by
  constructor
  · simp [move_to_xyz, start_program, _write_float, _write_int, regGet, cbind, issue,
      htx, hty, htz, hpn, hsp, hf]
  · intro s'
    simp [start_program, _write_int, regGet, cbind, issue, hpn, hsp, hf]

/-- C5 witness: `cfg0` on a healthy transport with coordinates 1, 2, 3. -/
theorem C5_move_to_xyz_four_ops_witness :
    cfg0.registers.lookup "target_x" = some 200 ∧
    cfg0.registers.lookup "target_y" = some 202 ∧
    cfg0.registers.lookup "target_z" = some 204 ∧
    cfg0.registers.lookup "program_number" = some 107 ∧
    cfg0.registers.lookup "start_program" = some 108 ∧
    tOK.failAfter = none ∧
    ((move_to_xyz cfg0 tOK 1 2 3 ⟨0, []⟩).2.trace =
      [] ++ [NetOp.writeRegisters 200 (encodeFloat32 1),
             NetOp.writeRegisters 202 (encodeFloat32 2),
             NetOp.writeRegisters 204 (encodeFloat32 3),
             NetOp.writeRegister 107 1, NetOp.writeRegister 108 1,
             NetOp.writeRegister 108 0] ∧
    (∀ s' : ExecState, (start_program cfg0 tOK 1 s').2.trace =
      s'.trace ++ [NetOp.writeRegister 107 1, NetOp.writeRegister 108 1,
                   NetOp.writeRegister 108 0])) :=
  ⟨rfl, rfl, rfl, rfl, rfl, rfl,
   C5_move_to_xyz_four_ops cfg0 tOK 1 2 3 200 202 204 107 108 ⟨0, []⟩ rfl rfl rfl rfl rfl rfl⟩

/-- C6: whenever `calibration['home_position']` is a three-coordinate
point, `go_home` is extensionally identical to `move_to_xyz` applied to
those three coordinates — same result, same trace, for every transport
and every starting state, so it produces exactly the same register
writes. -/
theorem C6_go_home_delegates (cfg : RCSConfig) (t : Transport) (hx hy hz : ℕ)
    (hh : cfg.calibration.lookup "home_position" = some (CalValue.point [hx, hy, hz])) :
    ∀ s, go_home cfg t s = move_to_xyz cfg t hx hy hz s := by
  intro s
  simp [go_home, calGet, cbind, hh]

/-- C6 witness: `cfg0`, whose home position is the point (10, 20, 30). -/
theorem C6_go_home_delegates_witness :
    cfg0.calibration.lookup "home_position" = some (CalValue.point [10, 20, 30]) ∧
    (∀ s, go_home cfg0 tOK s = move_to_xyz cfg0 tOK 10 20 30 s) :=
  ⟨rfl, C6_go_home_delegates cfg0 tOK 10 20 30 rfl⟩

/-- C7: when the controller answers a one-register read with a Modbus
exception response, `_read_int` raises a `ValueError` whose message
embeds the failing register address and the raw response detail; that
error kind is distinct from the transport/connection error kinds raised
elsewhere in the client (`ConnectionError` from `_connect`,
`ModbusException` from socket failures), so callers can distinguish a
register-read failure. -/
theorem C7_read_int_register_error (t : Transport) (address : ℕ) (s : ExecState)
    (hf : t.failAfter = none) (he : t.readIsError = true) :
    _read_int t address s =
      (Except.error (PyError.valueError
        ("Error reading register " ++ toString address ++ ": " ++ t.readErrorDetail)),
       ⟨s.succ + 1, s.trace ++ [NetOp.readHoldingRegisters address 1]⟩) ∧
    (∃ pre post : String,
      "Error reading register " ++ toString address ++ ": " ++ t.readErrorDetail =
        pre ++ toString address ++ post) ∧
    (∀ m m' : String, PyError.valueError m ≠ PyError.connectionError m' ∧
      PyError.valueError m ≠ PyError.modbusException m') := by
  refine ⟨?_, ⟨"Error reading register ", ": " ++ t.readErrorDetail, ?_⟩, ?_⟩
  · simp [_read_int, read_holding_registers, issue, cbind, cpure, cthrow, hf, he]
  · rw [string_append_assoc]
  · intro m m'
    exact ⟨by simp, by simp⟩

/-- C7 witness: a read of register 300 answered by an exception response. -/
theorem C7_read_int_register_error_witness :
    tReadErr.failAfter = none ∧ tReadErr.readIsError = true ∧
    (_read_int tReadErr 300 ⟨0, []⟩ =
      (Except.error (PyError.valueError
        ("Error reading register " ++ toString 300 ++ ": " ++ tReadErr.readErrorDetail)),
       ⟨0 + 1, [] ++ [NetOp.readHoldingRegisters 300 1]⟩) ∧
    (∃ pre post : String,
      "Error reading register " ++ toString 300 ++ ": " ++ tReadErr.readErrorDetail =
        pre ++ toString 300 ++ post) ∧
    (∀ m m' : String, PyError.valueError m ≠ PyError.connectionError m' ∧
      PyError.valueError m ≠ PyError.modbusException m')) :=
  ⟨rfl, rfl, C7_read_int_register_error tReadErr 300 ⟨0, []⟩ rfl rfl⟩

/-- C8: for every status word value the read returns, `get_status`
returns the dictionary holding that decimal value together with Python's
`bin` string, and the digit part of that binary string evaluates back to
the decimal value — the binary text matches the standard binary encoding
(in particular for 0, 1, 255 and 65535, which are instances of the
universally quantified value). -/
theorem C8_get_status_binary (cfg : RCSConfig) (t : Transport) (v a : ℕ) (s : ExecState)
    (ha : cfg.registers.lookup "status_word" = some a)
    (hf : t.failAfter = none) (he : t.readIsError = false) (hv : t.readValue = v) :
    (get_status cfg t s).1 = Except.ok ⟨v, pythonBin v⟩ ∧
    pythonBin v = "0b" ++ binDigitsStr v ∧ binDigitsVal (binDigitsStr v) = v := by
  refine ⟨?_, rfl, binDigitsVal_binDigitsStr v⟩
  simp [get_status, regGet, _read_int, read_holding_registers, issue, cbind, cpure,
    cthrow, ha, hf, he, hv]

/-- C8 witness at status word 255 on `cfg0`. -/
theorem C8_get_status_binary_witness :
    cfg0.registers.lookup "status_word" = some 300 ∧
    ((get_status cfg0 ⟨true, none, false, 255, ""⟩ ⟨0, []⟩).1 =
      Except.ok ⟨255, pythonBin 255⟩ ∧
    pythonBin 255 = "0b" ++ binDigitsStr 255 ∧ binDigitsVal (binDigitsStr 255) = 255) :=
  ⟨rfl, C8_get_status_binary cfg0 ⟨true, none, false, 255, ""⟩ 255 300 ⟨0, []⟩ rfl rfl rfl rfl⟩

/-- C4 counterexample: constructing the client from a configuration whose
register map lacks `status_word` does NOT fail — `__init__` returns a
fully constructed client and has already performed network I/O (the
`connect` attempt is in the trace), with `status_word` still absent from
the client's register map. -/
theorem C4_construction_succeeds_without_status_word :
    rcs_modbus_client_init dataNoStatus tOK ⟨0, []⟩ =
      (Except.ok cfgNoStatus, ⟨0, [NetOp.connect "192.168.0.10" 502]⟩) ∧
    cfgNoStatus.registers.lookup "status_word" = none := by
  constructor <;> rfl

/-- C4 amended: `_load_config` only requires the three top-level sections
to exist and never inspects the register map's entries, so with
`status_word` missing construction succeeds, the connect (network I/O)
is performed, and a complete client is produced; the missing entry only
surfaces later, when `get_status` looks the name up and raises
`KeyError("status_word")` — before issuing its read, but long after
construction and connection. -/
theorem C4_missing_status_word_fails_lazily (data : ConfigData) (t : Transport)
    (r : RcsSection) (regs : List (String × ℕ)) (cal : List (String × CalValue))
    (s : ExecState)
    (hr : data.rcs = some r) (hregs : data.registers = some regs)
    (hcal : data.calibration = some cal)
    (hmiss : regs.lookup "status_word" = none) (hc : t.connectOk = true) :
    ∃ cfg : RCSConfig,
      rcs_modbus_client_init data t s =
        (Except.ok cfg, ⟨s.succ, s.trace ++ [NetOp.connect r.host r.port]⟩) ∧
      cfg.registers = regs ∧
      ∀ s', get_status cfg t s' = (Except.error (PyError.keyError "status_word"), s') := by
  refine ⟨⟨r.host, r.port, r.timeout, r.unit_id, regs, cal⟩, ?_, rfl, ?_⟩
  · simp [rcs_modbus_client_init, _load_config, _connect, cbind, cpure, hr, hregs, hcal, hc]
  · intro s'
    simp [get_status, regGet, cbind, hmiss]

/-- C4 amended witness at `dataNoStatus` on a healthy transport. -/
theorem C4_missing_status_word_fails_lazily_witness :
    dataNoStatus.rcs = some ⟨"192.168.0.10", 502, 5, 1⟩ ∧
    dataNoStatus.registers = some regsNoStatus ∧
    regsNoStatus.lookup "status_word" = none ∧
    tOK.connectOk = true ∧
    (∃ cfg : RCSConfig,
      rcs_modbus_client_init dataNoStatus tOK ⟨0, []⟩ =
        (Except.ok cfg, ⟨0, [] ++ [NetOp.connect "192.168.0.10" 502]⟩) ∧
      cfg.registers = regsNoStatus ∧
      ∀ s', get_status cfg tOK s' = (Except.error (PyError.keyError "status_word"), s')) :=
  ⟨rfl, rfl, rfl, rfl,
   C4_missing_status_word_fails_lazily dataNoStatus tOK ⟨"192.168.0.10", 502, 5, 1⟩
     regsNoStatus _ ⟨0, []⟩ rfl rfl rfl rfl rfl⟩
